import Mathlib

/-!
# servo-trimmer: the user program `run` of `src/main.go`

`run` is sequential glue over an external service runtime (roverlib), a logger
and the clock.  The embedding below makes every call into those collaborators
explicit: the collaborators are a parameter (`World`), a state machine whose
answers may depend on everything that happened before, and `run` returns,
besides its Go result, the ordered list of the calls it made together with
what each call answered (`Event`).  The endless `for` loop of `run` is
unrolled `fuel` times.
-/

namespace ServoTrimmer

/-! ## Data model -/

/-- A Go `error` that is not nil, identified by the text `Error()` gives. -/
abbrev GoError := String

/-- A Go floating point value (`float32` or `float64`).  `run` never computes
with one, it only stores literals and passes values to the logger. -/
inductive GoFloat where
  | finite (q : ℚ)
  | posInf
  | negInf
  | nan
  deriving DecidableEq

/-- The message `pb_outputs.RpmSensorOutput`. -/
structure RpmSensorOutput where
  LeftRpm : GoFloat
  RightRpm : GoFloat
  deriving DecidableEq

/-- The oneof field of `pb_outputs.SensorOutput`: the wrapper
`SensorOutput_RpmOuput` holds a pointer to an `RpmSensorOutput`; every other
wrapper of the oneof is kept by its field number only. -/
inductive SensorOutputKind where
  | RpmOuput (RpmOuput : Option RpmSensorOutput)
  | Other (field : Nat)
  deriving DecidableEq

/-- The message `pb_outputs.SensorOutput`; `SensorOutput` is the oneof, nil
when no variant is set. -/
structure SensorOutput where
  SensorId : Nat
  Timestamp : Nat
  Status : Nat
  SensorOutput : Option SensorOutputKind
  deriving DecidableEq

/-- Generated getter `(*SensorOutput).GetRpmOuput`: nil for a nil receiver and
for a message whose oneof holds no `SensorOutput_RpmOuput`. -/
def GetRpmOuput (x : Option SensorOutput) : Option RpmSensorOutput :=
  match x with
  | some m =>
    match m.SensorOutput with
    | some (SensorOutputKind.RpmOuput r) => r
    | _ => none
  | none => none

/-- Generated getter `(*RpmSensorOutput).GetLeftRpm`: zero for a nil receiver. -/
def GetLeftRpm (x : Option RpmSensorOutput) : GoFloat :=
  match x with
  | some r => r.LeftRpm
  | none => GoFloat.finite 0

/-- Generated getter `(*RpmSensorOutput).GetRightRpm`: zero for a nil receiver. -/
def GetRightRpm (x : Option RpmSensorOutput) : GoFloat :=
  match x with
  | some r => r.RightRpm
  | none => GoFloat.finite 0

/-- The part of `roverlib.Service` that `run` reads: two string pointers. -/
structure Service where
  Name : Option String
  Version : Option String
  deriving DecidableEq

/-- What a non-nil `*roverlib.ServiceConfiguration` points to. -/
structure ServiceConfiguration where
  id : Nat
  deriving DecidableEq

/-- What a non-nil `*roverlib.WriteStream` points to. -/
structure WriteStream where
  id : Nat
  deriving DecidableEq

/-- What a non-nil `*roverlib.ReadStream` points to. -/
structure ReadStream where
  id : Nat
  deriving DecidableEq

/-- Severity of a log entry (`log.Info()`, `log.Error()`). -/
inductive Level where
  | info
  | error
  deriving DecidableEq

/-- An argument handed to `Msgf`. -/
inductive Arg where
  | str (s : String)
  | float (x : GoFloat)
  | bytes (b : List Nat)
  deriving DecidableEq

/-- One call of `run` into a collaborator, with its arguments and its answer. -/
inductive Event where
  | log (level : Level) (format : String) (args : List Arg)
  | getFloatSafe (key : String) (value : GoFloat) (err : Option GoError)
  | getStringSafe (key : String) (value : String) (err : Option GoError)
  | getString (key : String) (value : String) (err : Option GoError)
  | getWriteStream (name : String) (stream : Option WriteStream)
  | getReadStream (name : String) (source : String) (stream : Option ReadStream)
  | now (unixMilli : Int)
  | write (stream : WriteStream) (payload : SensorOutput) (err : Option GoError)
  | writeBytes (stream : WriteStream) (raw : List Nat) (err : Option GoError)
  | read (stream : ReadStream) (msg : Option SensorOutput) (err : Option GoError)
  | readBytes (stream : ReadStream) (raw : List Nat) (err : Option GoError)
  | sleep (nanoseconds : Nat)
  deriving DecidableEq

/-- The name of the operation behind an event. -/
inductive Op where
  | log
  | getFloatSafe
  | getStringSafe
  | getString
  | getWriteStream
  | getReadStream
  | now
  | write
  | writeBytes
  | read
  | readBytes
  | sleep
  deriving DecidableEq

/-- The operation an event is a call of. -/
def Event.op : Event → Op
  | Event.log _ _ _ => Op.log
  | Event.getFloatSafe _ _ _ => Op.getFloatSafe
  | Event.getStringSafe _ _ _ => Op.getStringSafe
  | Event.getString _ _ _ => Op.getString
  | Event.getWriteStream _ _ => Op.getWriteStream
  | Event.getReadStream _ _ _ => Op.getReadStream
  | Event.now _ => Op.now
  | Event.write _ _ _ => Op.write
  | Event.writeBytes _ _ _ => Op.writeBytes
  | Event.read _ _ _ => Op.read
  | Event.readBytes _ _ _ => Op.readBytes
  | Event.sleep _ => Op.sleep

/-- The collaborators of `run`: roverlib's configuration and streams, the clock
and `time.Sleep`.  Each call answers from the current state `σ` of the outside
world and moves it.  A Go result `(value, error)` is the pair of the value and
an optional error, both as the callee set them. -/
structure World (σ : Type) where
  GetFloatSafe : ServiceConfiguration → String → σ → (GoFloat × Option GoError) × σ
  GetStringSafe : ServiceConfiguration → String → σ → (String × Option GoError) × σ
  GetString : ServiceConfiguration → String → σ → (String × Option GoError) × σ
  GetWriteStream : Service → String → σ → Option WriteStream × σ
  GetReadStream : Service → String → String → σ → Option ReadStream × σ
  Now : σ → Int × σ
  Write : WriteStream → SensorOutput → σ → Option GoError × σ
  WriteBytes : WriteStream → List Nat → σ → Option GoError × σ
  Read : ReadStream → σ → (Option SensorOutput × Option GoError) × σ
  ReadBytes : ReadStream → σ → (List Nat × Option GoError) × σ
  Sleep : Nat → σ → σ

/-- How an execution of `run` stands after `fuel` turns of its loop: it has
returned an `error` (nil is `none`), it has stopped on a nil dereference, or it
is still in the loop with the local variable `curr`. -/
inductive Outcome where
  | returned (err : Option GoError)
  | nilDereference
  | running (curr : String)
  deriving DecidableEq

/-- An execution: its outcome, the state the world is left in, and the calls
made, oldest first. -/
structure Result (σ : Type) where
  outcome : Outcome
  world : σ
  trace : List Event

/-- Put a call in front of the calls of the rest of the execution. -/
def Result.emit {σ : Type} (e : Event) (r : Result σ) : Result σ :=
  { r with trace := e :: r.trace }

/-- Put several calls in front of the calls of the rest of the execution. -/
def Result.emits {σ : Type} (es : List Event) (r : Result σ) : Result σ :=
  { r with trace := es ++ r.trace }

/-- The text of `fmt.Errorf(text ++ "%v", err)`. -/
def Errorf (text : String) (err : GoError) : GoError := text ++ err

/-- The bytes of `[]byte("Hello world!")`. -/
def helloWorld : List Nat := [72, 101, 108, 108, 111, 32, 119, 111, 114, 108, 100, 33]

/-- The duration `1 * time.Second`, in nanoseconds. -/
def second : Nat := 1000000000

/-- The conversion `uint64(x)` of an `int64`. -/
def uint64 (x : Int) : Nat := (x % 2 ^ 64).toNat

/-! ## The program -/

/-- Lines 56-66 of `main.go`: the message `run` builds for its typed write,
from the reading of the clock. -/
def rpmPayload (unixMilli : Int) : SensorOutput :=
  { SensorId := 404
    Timestamp := uint64 unixMilli
    Status := 0
    SensorOutput := some (SensorOutputKind.RpmOuput
      (some { LeftRpm := GoFloat.finite 1000, RightRpm := GoFloat.finite 1200 })) }

/-- Lines 87-96 of `main.go`: the one log entry written after `Read`. -/
def readLog (pbData : Option SensorOutput) (err : Option GoError) : Event :=
  match err with
  | some e => Event.log Level.error "failed to read from stream: %v" [Arg.str e]
  | none =>
    if GetRpmOuput pbData = none then
      Event.log Level.error "expected RPM data, but got something else" []
    else
      Event.log Level.info "Received RPM data: %f, %f"
        [Arg.float (GetLeftRpm (GetRpmOuput pbData)),
         Arg.float (GetRightRpm (GetRpmOuput pbData))]

/-- Lines 100-104 of `main.go`: the one log entry written after `ReadBytes`. -/
def readBytesLog (rawData : List Nat) (err : Option GoError) : Event :=
  match err with
  | some e => Event.log Level.error "failed to read from stream: %v" [Arg.str e]
  | none => Event.log Level.info "Received raw data: %s" [Arg.bytes rawData]

/-- Lines 110-128 of `main.go`: the `for` loop of `run`, `fuel` turns of it. -/
def pollLoop {σ : Type} (w : World σ) (configuration : ServiceConfiguration) :
    Nat → String → σ → Result σ
  | 0, curr, s => ⟨Outcome.running curr, s, []⟩
  | fuel + 1, curr, s =>
    Result.emit (Event.log Level.info "Checking for tunable string update" []) <|
    let r := w.GetString configuration "tunable-string-example" s
    let newVal := r.1.1
    Result.emit (Event.getString "tunable-string-example" newVal r.1.2) <|
    match r.1.2 with
    | some err => ⟨Outcome.returned (some (Errorf "failed to get configuration: " err)), r.2, []⟩
    | none =>
      Result.emits
        (if curr ≠ newVal then
          [Event.log Level.info "Tunable string updated: %s -> %s" [Arg.str curr, Arg.str newVal]]
         else []) <|
      Result.emit (Event.sleep second) <|
      pollLoop w configuration fuel (if curr ≠ newVal then newVal else curr) (w.Sleep second r.2)

/-- The function `run` of `main.go`, with `fuel` turns of its final loop. -/
def run {σ : Type} (w : World σ) (service : Service)
    (configuration : Option ServiceConfiguration) (fuel : Nat) (s : σ) : Result σ :=
  match configuration with
  | none => ⟨Outcome.returned (some "configuration cannot be accessed"), s, []⟩
  | some cfg =>
  match service.Name with
  | none => ⟨Outcome.nilDereference, s, []⟩
  | some name =>
  match service.Version with
  | none => ⟨Outcome.nilDereference, s, []⟩
  | some version =>
  Result.emit (Event.log Level.info
    "Hello world, a new service '%s' was born at version %s" [Arg.str name, Arg.str version]) <|
  let r1 := w.GetFloatSafe cfg "number-example" s
  let exampleNum := r1.1.1
  Result.emit (Event.getFloatSafe "number-example" exampleNum r1.1.2) <|
  match r1.1.2 with
  | some err => ⟨Outcome.returned (some (Errorf "failed to get configuration: " err)), r1.2, []⟩
  | none =>
  Result.emit (Event.log Level.info
    "Fetched runtime configuration example number: %f" [Arg.float exampleNum]) <|
  let r2 := w.GetStringSafe cfg "string-example" r1.2
  let exampleString := r2.1.1
  Result.emit (Event.getStringSafe "string-example" exampleString r2.1.2) <|
  match r2.1.2 with
  | some err => ⟨Outcome.returned (some (Errorf "failed to get configuration: " err)), r2.2, []⟩
  | none =>
  Result.emit (Event.log Level.info
    "Fetched runtime configuration example string: %s" [Arg.str exampleString]) <|
  let r3 := w.GetStringSafe cfg "tunable-string-example" r2.2
  let exampleStringTunable := r3.1.1
  Result.emit (Event.getStringSafe "tunable-string-example" exampleStringTunable r3.1.2) <|
  match r3.1.2 with
  | some err => ⟨Outcome.returned (some (Errorf "failed to get configuration: " err)), r3.2, []⟩
  | none =>
  Result.emit (Event.log Level.info
    "Fetched runtime configuration example tunable string: %s" [Arg.str exampleStringTunable]) <|
  let r4 := w.GetWriteStream service "example-output" r3.2
  Result.emit (Event.getWriteStream "example-output" r4.1) <|
  match r4.1 with
  | none => ⟨Outcome.returned (some "failed to get write stream"), r4.2, []⟩
  | some writeStream =>
  let r5 := w.Now r4.2
  Result.emit (Event.now r5.1) <|
  let r6 := w.Write writeStream (rpmPayload r5.1) r5.2
  Result.emit (Event.write writeStream (rpmPayload r5.1) r6.1) <|
  match r6.1 with
  | some err => ⟨Outcome.returned (some (Errorf "failed to write to stream: " err)), r6.2, []⟩
  | none =>
  let r7 := w.WriteBytes writeStream helloWorld r6.2
  Result.emit (Event.writeBytes writeStream helloWorld r7.1) <|
  match r7.1 with
  | some err => ⟨Outcome.returned (some (Errorf "failed to write to stream: " err)), r7.2, []⟩
  | none =>
  let r8 := w.GetReadStream service "example-input" "rpm-data" r7.2
  Result.emit (Event.getReadStream "example-input" "rpm-data" r8.1) <|
  match r8.1 with
  | none => ⟨Outcome.returned (some "failed to get read stream"), r8.2, []⟩
  | some readStream =>
  let r9 := w.Read readStream r8.2
  let pbData := r9.1.1
  Result.emit (Event.read readStream pbData r9.1.2) <|
  Result.emit (readLog pbData r9.1.2) <|
  let r10 := w.ReadBytes readStream r9.2
  let rawData := r10.1.1
  Result.emit (Event.readBytes readStream rawData r10.1.2) <|
  Result.emit (readBytesLog rawData r10.1.2) <|
  pollLoop w cfg fuel exampleStringTunable r10.2

/-- The world at the start of turn `i` of the loop entered in the world `s`,
when the turns before it polled without error: each turn polls, then sleeps. -/
def pollState {σ : Type} (w : World σ) (cfg : ServiceConfiguration) (s : σ) : Nat → σ
  | 0 => s
  | i + 1 => w.Sleep second (w.GetString cfg "tunable-string-example" (pollState w cfg s i)).2

/-- What the poll of turn `i` answers: `GetString("tunable-string-example")`. -/
def pollAnswer {σ : Type} (w : World σ) (cfg : ServiceConfiguration) (s : σ) (i : Nat) :
    String × Option GoError :=
  (w.GetString cfg "tunable-string-example" (pollState w cfg s i)).1

/-! ## Reading a trace -/

/-- The values the successful `GetString` polls of a trace returned, in order. -/
def polled (tr : List Event) : List String :=
  tr.filterMap fun e =>
    match e with
    | Event.getString _ v none => some v
    | _ => none

/-- The updates a trace reports, "Tunable string updated: old -> new", in order. -/
def updates (tr : List Event) : List (String × String) :=
  tr.filterMap fun e =>
    match e with
    | Event.log Level.info "Tunable string updated: %s -> %s" [Arg.str a, Arg.str b] => some (a, b)
    | _ => none

/-- The calls of one operation in a trace. -/
def callsOf (op : Op) (tr : List Event) : List Event :=
  tr.filter fun e => e.op = op

/-- The pairs of neighbours of `v0, v1, ..., vn` that differ. -/
def changes {α : Type} [DecidableEq α] (v0 : α) (vs : List α) : List (α × α) :=
  (List.zip (v0 :: vs) vs).filter fun p => p.1 ≠ p.2

/-! ## The paths through `run` -/

/-- The entry `run` logs first. -/
def helloLog (name version : String) : Event :=
  Event.log Level.info "Hello world, a new service '%s' was born at version %s"
    [Arg.str name, Arg.str version]

/-- Calls of lines 24-33 when the number was read without error. -/
def numberTrace (name version : String) (x : GoFloat) : List Event :=
  [helloLog name version,
   Event.getFloatSafe "number-example" x none,
   Event.log Level.info "Fetched runtime configuration example number: %f" [Arg.float x]]

/-- Calls of lines 35-39 when the string was read without error. -/
def stringTrace (v : String) : List Event :=
  [Event.getStringSafe "string-example" v none,
   Event.log Level.info "Fetched runtime configuration example string: %s" [Arg.str v]]

/-- Calls of lines 41-45 when the tunable string was read without error. -/
def tunableTrace (v : String) : List Event :=
  [Event.getStringSafe "tunable-string-example" v none,
   Event.log Level.info "Fetched runtime configuration example tunable string: %s" [Arg.str v]]

/-- Calls of lines 24-45 when all three configuration reads succeeded. -/
def configTrace (name version : String) (x : GoFloat) (v2 v3 : String) : List Event :=
  numberTrace name version x ++ stringTrace v2 ++ tunableTrace v3

/-- Calls of lines 50-75 when the stream resolved and both writes succeeded. -/
def writeTrace (ws : WriteStream) (t : Int) : List Event :=
  [Event.getWriteStream "example-output" (some ws),
   Event.now t,
   Event.write ws (rpmPayload t) none,
   Event.writeBytes ws helloWorld none]

/-- Calls of lines 80-104 when the read stream resolved; `l9 f9 a9` and
`l10 f10 a10` are the log entries written after `Read` and after `ReadBytes`. -/
def readTrace (rs : ReadStream) (m : Option SensorOutput) (e9 : Option GoError)
    (l9 : Level) (f9 : String) (a9 : List Arg)
    (raw : List Nat) (e10 : Option GoError)
    (l10 : Level) (f10 : String) (a10 : List Arg) : List Event :=
  [Event.getReadStream "example-input" "rpm-data" (some rs),
   Event.read rs m e9,
   Event.log l9 f9 a9,
   Event.readBytes rs raw e10,
   Event.log l10 f10 a10]

/-- The ways `run` ends before its loop: the outcome and the calls made. -/
inductive EarlyExit (service : Service) (configuration : Option ServiceConfiguration) :
    Outcome → List Event → Prop where
  | nilConfiguration : configuration = none →
      EarlyExit service configuration
        (Outcome.returned (some "configuration cannot be accessed")) []
  | nilName : configuration ≠ none → service.Name = none →
      EarlyExit service configuration Outcome.nilDereference []
  | nilVersion : configuration ≠ none → service.Version = none →
      EarlyExit service configuration Outcome.nilDereference []
  | numberFailed (name version : String) (x : GoFloat) (err : GoError) :
      EarlyExit service configuration
        (Outcome.returned (some (Errorf "failed to get configuration: " err)))
        [helloLog name version, Event.getFloatSafe "number-example" x (some err)]
  | stringFailed (name version : String) (x : GoFloat) (v2 : String) (err : GoError) :
      EarlyExit service configuration
        (Outcome.returned (some (Errorf "failed to get configuration: " err)))
        (numberTrace name version x ++ [Event.getStringSafe "string-example" v2 (some err)])
  | tunableFailed (name version : String) (x : GoFloat) (v2 v3 : String) (err : GoError) :
      EarlyExit service configuration
        (Outcome.returned (some (Errorf "failed to get configuration: " err)))
        (numberTrace name version x ++ stringTrace v2 ++
          [Event.getStringSafe "tunable-string-example" v3 (some err)])
  | noWriteStream (name version : String) (x : GoFloat) (v2 v3 : String) :
      EarlyExit service configuration
        (Outcome.returned (some "failed to get write stream"))
        (configTrace name version x v2 v3 ++ [Event.getWriteStream "example-output" none])
  | writeFailed (name version : String) (x : GoFloat) (v2 v3 : String) (ws : WriteStream)
      (t : Int) (err : GoError) :
      EarlyExit service configuration
        (Outcome.returned (some (Errorf "failed to write to stream: " err)))
        (configTrace name version x v2 v3 ++
          [Event.getWriteStream "example-output" (some ws), Event.now t,
           Event.write ws (rpmPayload t) (some err)])
  | writeBytesFailed (name version : String) (x : GoFloat) (v2 v3 : String) (ws : WriteStream)
      (t : Int) (err : GoError) :
      EarlyExit service configuration
        (Outcome.returned (some (Errorf "failed to write to stream: " err)))
        (configTrace name version x v2 v3 ++
          [Event.getWriteStream "example-output" (some ws), Event.now t,
           Event.write ws (rpmPayload t) none, Event.writeBytes ws helloWorld (some err)])
  | noReadStream (name version : String) (x : GoFloat) (v2 v3 : String) (ws : WriteStream)
      (t : Int) :
      EarlyExit service configuration
        (Outcome.returned (some "failed to get read stream"))
        (configTrace name version x v2 v3 ++ writeTrace ws t ++
          [Event.getReadStream "example-input" "rpm-data" none])

/-- The world `w` with the message that `Read` hands back replaced by `m`;
the error `Read` returns and the way the world moves are those of `w`. -/
def World.withReadMessage {σ : Type} (w : World σ) (m : Option SensorOutput) : World σ :=
  { w with Read := fun rs s => ((m, (w.Read rs s).1.2), (w.Read rs s).2) }

/-! ## Concrete worlds -/

/-- The state of a scripted world: whether the runtime has been asked to
terminate the service, and how many polls have been answered. -/
structure Sim where
  terminationRequested : Bool
  polls : Nat
  deriving DecidableEq

/-- The answers of a scripted world. -/
structure Script where
  number : GoFloat × Option GoError
  string : String × Option GoError
  tunable : String × Option GoError
  writeStream : Option WriteStream
  clock : Int
  write : Option GoError
  writeBytes : Option GoError
  readStream : Option ReadStream
  read : Option SensorOutput × Option GoError
  readBytes : List Nat × Option GoError
  polls : List (String × Option GoError)
  later : String × Option GoError

/-- The world that answers by a script: the listed polls in order, `later` to
every poll after them; the termination request arrives during the first sleep. -/
def scripted (sc : Script) : World Sim where
  GetFloatSafe := fun _ key s =>
    (if key = "number-example" then sc.number else (GoFloat.finite 0, some "key not found"), s)
  GetStringSafe := fun _ key s =>
    (if key = "string-example" then sc.string
     else if key = "tunable-string-example" then sc.tunable
     else ("", some "key not found"), s)
  GetString := fun _ _ s => (sc.polls.getD s.polls sc.later, { s with polls := s.polls + 1 })
  GetWriteStream := fun _ _ s => (sc.writeStream, s)
  GetReadStream := fun _ _ _ s => (sc.readStream, s)
  Now := fun s => (sc.clock, s)
  Write := fun _ _ s => (sc.write, s)
  WriteBytes := fun _ _ s => (sc.writeBytes, s)
  Read := fun _ s => (sc.read, s)
  ReadBytes := fun _ s => (sc.readBytes, s)
  Sleep := fun _ s => { s with terminationRequested := true }

/-- A script in which every call succeeds and the tunable string goes
"a", "a", "b", "b", "c" and stays "c". -/
def calm : Script where
  number := (GoFloat.finite (157 / 50), none)
  string := ("hello", none)
  tunable := ("a", none)
  writeStream := some ⟨1⟩
  clock := 1700000000000
  write := none
  writeBytes := none
  readStream := some ⟨2⟩
  read := (some (rpmPayload 5), none)
  readBytes := ([72, 105], none)
  polls := [("a", none), ("b", none), ("b", none), ("c", none)]
  later := ("c", none)

/-- A service with an identity. -/
def rover : Service := { Name := some "servo-trimmer", Version := some "1.0.0" }

/-- A service without an identity. -/
def anonymous : Service := { Name := none, Version := none }

/-- The state of a scripted world before `run` starts. -/
def boot : Sim := { terminationRequested := false, polls := 0 }

/-! ## Facts about the loop -/

@[simp] theorem Result.emit_outcome {σ : Type} (e : Event) (r : Result σ) :
    (Result.emit e r).outcome = r.outcome := rfl

@[simp] theorem Result.emit_trace {σ : Type} (e : Event) (r : Result σ) :
    (Result.emit e r).trace = e :: r.trace := rfl

@[simp] theorem Result.emit_world {σ : Type} (e : Event) (r : Result σ) :
    (Result.emit e r).world = r.world := rfl

@[simp] theorem Result.emits_outcome {σ : Type} (es : List Event) (r : Result σ) :
    (Result.emits es r).outcome = r.outcome := rfl

@[simp] theorem Result.emits_trace {σ : Type} (es : List Event) (r : Result σ) :
    (Result.emits es r).trace = es ++ r.trace := rfl

@[simp] theorem Result.emits_world {σ : Type} (es : List Event) (r : Result σ) :
    (Result.emits es r).world = r.world := rfl

/-- The loop only logs, polls the tunable key and sleeps. -/
theorem pollLoop_ops {σ : Type} (w : World σ) (cfg : ServiceConfiguration) (fuel : Nat) :
    ∀ (curr : String) (s : σ), ∀ e ∈ (pollLoop w cfg fuel curr s).trace,
      e.op = Op.log ∨ e.op = Op.getString ∨ e.op = Op.sleep := by
  induction fuel with
  | zero => intro curr s e he; simp [pollLoop] at he
  | succ n ih =>
    intro curr s e he
    simp only [pollLoop] at he
    split at he
    · simp at he
      rcases he with rfl | rfl <;> simp [Event.op]
    · simp at he
      rcases he with rfl | rfl | he
      · simp [Event.op]
      · simp [Event.op]
      · rcases he with ⟨_, rfl⟩ | rfl | he
        · simp [Event.op]
        · simp [Event.op]
        · exact ih _ _ e he

/-- The loop never ends with a nil error and never dereferences nil. -/
theorem pollLoop_outcome {σ : Type} (w : World σ) (cfg : ServiceConfiguration) (fuel : Nat) :
    ∀ (curr : String) (s : σ),
      (∃ c, (pollLoop w cfg fuel curr s).outcome = Outcome.running c) ∨
      (∃ e, (pollLoop w cfg fuel curr s).outcome = Outcome.returned (some e)) := by
  induction fuel with
  | zero => intro curr s; left; exact ⟨curr, rfl⟩
  | succ n ih =>
    intro curr s
    simp only [pollLoop]
    split
    · right; exact ⟨_, rfl⟩
    · simpa using ih _ _

/-- The loop does not depend on what `Read` hands back. -/
theorem pollLoop_withReadMessage {σ : Type} (w : World σ) (m : Option SensorOutput)
    (cfg : ServiceConfiguration) (fuel : Nat) :
    ∀ (curr : String) (s : σ),
      pollLoop (w.withReadMessage m) cfg fuel curr s = pollLoop w cfg fuel curr s := by
  induction fuel with
  | zero => intro curr s; rfl
  | succ n ih =>
    intro curr s
    simp only [pollLoop, World.withReadMessage]
    split
    · rfl
    · rw [← ih]; rfl

/-- The calls of an operation in a trace made of two parts. -/
theorem callsOf_append (op : Op) (a b : List Event) :
    callsOf op (a ++ b) = callsOf op a ++ callsOf op b := by
  simp [callsOf]

/-- The loop makes no call other than log entries, polls and sleeps. -/
theorem callsOf_pollLoop {σ : Type} (w : World σ) (cfg : ServiceConfiguration) (fuel : Nat)
    (curr : String) (s : σ) (op : Op)
    (h1 : op ≠ Op.log) (h2 : op ≠ Op.getString) (h3 : op ≠ Op.sleep) :
    callsOf op (pollLoop w cfg fuel curr s).trace = [] := by
  unfold callsOf
  rw [List.filter_eq_nil_iff]
  intro e he
  rcases pollLoop_ops w cfg fuel curr s e he with h | h | h <;> simp [h] <;>
    intro h4 <;> simp [← h4] at h1 h2 h3

/-- The neighbours that differ, one value further. -/
theorem changes_cons {α : Type} [DecidableEq α] (c v : α) (vs : List α) :
    changes c (v :: vs) = (if c ≠ v then [(c, v)] else []) ++ changes v vs := by
  by_cases h : c = v <;> simp [changes, List.filter_cons, h]

/-- One turn of the loop whose poll returned an error. -/
theorem pollLoop_succ_failed {σ : Type} (w : World σ) (cfg : ServiceConfiguration) (fuel : Nat)
    (curr : String) (s : σ) (err : GoError)
    (h : (w.GetString cfg "tunable-string-example" s).1.2 = some err) :
    pollLoop w cfg (fuel + 1) curr s =
      ⟨Outcome.returned (some (Errorf "failed to get configuration: " err)),
        (w.GetString cfg "tunable-string-example" s).2,
        [Event.log Level.info "Checking for tunable string update" [],
         Event.getString "tunable-string-example"
           (w.GetString cfg "tunable-string-example" s).1.1 (some err)]⟩ := by
  simp [pollLoop, h, Result.emit]

/-- One turn of the loop whose poll returned no error. -/
theorem pollLoop_succ_ok {σ : Type} (w : World σ) (cfg : ServiceConfiguration) (fuel : Nat)
    (curr : String) (s : σ)
    (h : (w.GetString cfg "tunable-string-example" s).1.2 = none) :
    pollLoop w cfg (fuel + 1) curr s =
      Result.emits
        ([Event.log Level.info "Checking for tunable string update" [],
          Event.getString "tunable-string-example"
            (w.GetString cfg "tunable-string-example" s).1.1 none] ++
         (if curr ≠ (w.GetString cfg "tunable-string-example" s).1.1 then
           [Event.log Level.info "Tunable string updated: %s -> %s"
             [Arg.str curr, Arg.str (w.GetString cfg "tunable-string-example" s).1.1]]
          else []) ++ [Event.sleep second])
        (pollLoop w cfg fuel (w.GetString cfg "tunable-string-example" s).1.1
          (w.Sleep second (w.GetString cfg "tunable-string-example" s).2)) := by
  have hc : (if curr = (w.GetString cfg "tunable-string-example" s).1.1 then curr
      else (w.GetString cfg "tunable-string-example" s).1.1)
      = (w.GetString cfg "tunable-string-example" s).1.1 := by
    split <;> simp_all
  simp [pollLoop, h, Result.emit, Result.emits, hc]

/-- The updates of a trace made of two parts. -/
theorem updates_append (a b : List Event) : updates (a ++ b) = updates a ++ updates b := by
  simp [updates]

/-- The polled values of a trace made of two parts. -/
theorem polled_append (a b : List Event) : polled (a ++ b) = polled a ++ polled b := by
  simp [polled]

/-- The value polled in a turn that goes on. -/
theorem polled_turn (curr v : String) :
    polled ([Event.log Level.info "Checking for tunable string update" [],
        Event.getString "tunable-string-example" v none] ++
      (if curr ≠ v then
        [Event.log Level.info "Tunable string updated: %s -> %s" [Arg.str curr, Arg.str v]]
       else []) ++ [Event.sleep second]) = [v] := by
  by_cases h : curr = v <;> simp [polled, h]

/-- The poll of a turn that goes on. -/
theorem callsOf_getString_turn (curr v : String) :
    callsOf Op.getString ([Event.log Level.info "Checking for tunable string update" [],
        Event.getString "tunable-string-example" v none] ++
      (if curr ≠ v then
        [Event.log Level.info "Tunable string updated: %s -> %s" [Arg.str curr, Arg.str v]]
       else []) ++ [Event.sleep second]) = [Event.getString "tunable-string-example" v none] := by
  by_cases h : curr = v <;> simp [callsOf, Event.op, h]

/-- The update reported in a turn that goes on. -/
theorem updates_turn (curr v : String) :
    updates ([Event.log Level.info "Checking for tunable string update" [],
        Event.getString "tunable-string-example" v none] ++
      (if curr ≠ v then
        [Event.log Level.info "Tunable string updated: %s -> %s" [Arg.str curr, Arg.str v]]
       else []) ++ [Event.sleep second]) = if curr ≠ v then [(curr, v)] else [] := by
  by_cases h : curr = v <;> simp [updates, h]

/-- The loop reports exactly the changes between the values it polls. -/
theorem pollLoop_updates {σ : Type} (w : World σ) (cfg : ServiceConfiguration) (fuel : Nat) :
    ∀ (curr : String) (s : σ),
      updates (pollLoop w cfg fuel curr s).trace
        = changes curr (polled (pollLoop w cfg fuel curr s).trace) := by
  induction fuel with
  | zero => intro curr s; simp [pollLoop, updates, polled, changes]
  | succ n ih =>
    intro curr s
    cases h : (w.GetString cfg "tunable-string-example" s).1.2 with
    | some err =>
      rw [pollLoop_succ_failed w cfg n curr s err h]
      simp [updates, polled, changes]
    | none =>
      rw [pollLoop_succ_ok w cfg n curr s h]
      rw [Result.emits_trace, updates_append, polled_append, ih, polled_turn, updates_turn,
        List.singleton_append, changes_cons]

/-- While the loop runs it has polled once a turn, each time without error, and
`curr` is the last value polled. -/
theorem pollLoop_running {σ : Type} (w : World σ) (cfg : ServiceConfiguration) (fuel : Nat) :
    ∀ (curr : String) (s : σ) (c : String),
      (pollLoop w cfg fuel curr s).outcome = Outcome.running c →
      (polled (pollLoop w cfg fuel curr s).trace).length = fuel ∧
      c = (polled (pollLoop w cfg fuel curr s).trace).getLastD curr ∧
      (callsOf Op.getString (pollLoop w cfg fuel curr s).trace).length = fuel := by
  induction fuel with
  | zero =>
    intro curr s c h
    simp only [pollLoop, Outcome.running.injEq] at h
    simp [pollLoop, polled, callsOf, h]
  | succ n ih =>
    intro curr s c h
    cases hg : (w.GetString cfg "tunable-string-example" s).1.2 with
    | some err =>
      rw [pollLoop_succ_failed w cfg n curr s err hg] at h
      simp at h
    | none =>
      rw [pollLoop_succ_ok w cfg n curr s hg] at h ⊢
      simp only [Result.emits_outcome] at h
      obtain ⟨h1, h2, h3⟩ := ih _ _ c h
      rw [Result.emits_trace, polled_append, callsOf_append, polled_turn,
        callsOf_getString_turn, List.singleton_append, List.singleton_append,
        List.getLastD_cons, List.length_cons, List.length_cons, h1, h3]
      exact ⟨rfl, h2, rfl⟩

/-- The sleep of a turn that goes on. -/
theorem callsOf_sleep_turn (curr v : String) :
    callsOf Op.sleep ([Event.log Level.info "Checking for tunable string update" [],
        Event.getString "tunable-string-example" v none] ++
      (if curr ≠ v then
        [Event.log Level.info "Tunable string updated: %s -> %s" [Arg.str curr, Arg.str v]]
       else []) ++ [Event.sleep second]) = [Event.sleep second] := by
  by_cases h : curr = v <;> simp [callsOf, Event.op, h]

/-- The world at the start of a turn, counted from the turn after the first. -/
theorem pollState_shift {σ : Type} (w : World σ) (cfg : ServiceConfiguration) (s : σ) (i : Nat) :
    pollState w cfg s (i + 1)
      = pollState w cfg (w.Sleep second (w.GetString cfg "tunable-string-example" s).2) i := by
  induction i with
  | zero => rfl
  | succ n ih =>
    show w.Sleep second (w.GetString cfg "tunable-string-example" (pollState w cfg s (n + 1))).2
      = w.Sleep second (w.GetString cfg "tunable-string-example" (pollState w cfg _ n)).2
    rw [ih]

/-- The answer of a turn, counted from the turn after the first. -/
theorem pollAnswer_shift {σ : Type} (w : World σ) (cfg : ServiceConfiguration) (s : σ) (i : Nat) :
    pollAnswer w cfg s (i + 1)
      = pollAnswer w cfg (w.Sleep second (w.GetString cfg "tunable-string-example" s).2) i := by
  unfold pollAnswer
  rw [pollState_shift]

/-- As long as the polls return no error the loop goes on: after `fuel` turns
it is still running, having polled `fuel` times and slept `fuel` seconds. -/
theorem pollLoop_all_succeed {σ : Type} (w : World σ) (cfg : ServiceConfiguration) (fuel : Nat) :
    ∀ (curr : String) (s : σ), (∀ i, i < fuel → (pollAnswer w cfg s i).2 = none) →
      (∃ c, (pollLoop w cfg fuel curr s).outcome = Outcome.running c) ∧
      polled (pollLoop w cfg fuel curr s).trace
        = (List.range fuel).map (fun i => (pollAnswer w cfg s i).1) ∧
      callsOf Op.sleep (pollLoop w cfg fuel curr s).trace
        = List.replicate fuel (Event.sleep second) := by
  induction fuel with
  | zero => intro curr s _; exact ⟨⟨curr, rfl⟩, rfl, rfl⟩
  | succ n ih =>
    intro curr s h
    have h0 : (w.GetString cfg "tunable-string-example" s).1.2 = none := h 0 (Nat.succ_pos n)
    obtain ⟨⟨c, hc⟩, hp, hs⟩ := ih (w.GetString cfg "tunable-string-example" s).1.1
      (w.Sleep second (w.GetString cfg "tunable-string-example" s).2)
      (fun i hi => by rw [← pollAnswer_shift]; exact h (i + 1) (Nat.succ_lt_succ hi))
    rw [pollLoop_succ_ok w cfg n curr s h0]
    refine ⟨⟨c, hc⟩, ?_, ?_⟩
    · rw [Result.emits_trace, polled_append, polled_turn, hp, List.range_succ_eq_map,
        List.map_cons, List.map_map]
      simp only [List.singleton_append, List.cons.injEq]
      refine ⟨rfl, List.map_congr_left ?_⟩
      intro i _
      simp [pollAnswer_shift]
    · rw [Result.emits_trace, callsOf_append, callsOf_sleep_turn, hs]
      rfl

/-- The loop returns at the first poll that returns an error: when the polls of
the turns before turn `k` return no error and the poll of turn `k` returns
`err`, any execution of more than `k` turns has returned the error made from
`err`, that poll being its last call and the `k + 1`-th poll. -/
theorem pollLoop_first_failure {σ : Type} (w : World σ) (cfg : ServiceConfiguration) (k : Nat) :
    ∀ (fuel : Nat) (curr : String) (s : σ) (err : GoError), k < fuel →
      (∀ i, i < k → (pollAnswer w cfg s i).2 = none) →
      (pollAnswer w cfg s k).2 = some err →
      (pollLoop w cfg fuel curr s).outcome
        = Outcome.returned (some (Errorf "failed to get configuration: " err)) ∧
      (pollLoop w cfg fuel curr s).trace.getLast?
        = some (Event.getString "tunable-string-example" (pollAnswer w cfg s k).1 (some err)) ∧
      (callsOf Op.getString (pollLoop w cfg fuel curr s).trace).length = k + 1 ∧
      polled (pollLoop w cfg fuel curr s).trace
        = (List.range k).map (fun i => (pollAnswer w cfg s i).1) := by
  induction k with
  | zero =>
    intro fuel curr s err hk _ hf
    obtain ⟨n, rfl⟩ : ∃ n, fuel = n + 1 := ⟨fuel - 1, by omega⟩
    have hf0 : (w.GetString cfg "tunable-string-example" s).1.2 = some err := hf
    rw [pollLoop_succ_failed w cfg n curr s err hf0]
    simp [callsOf, Event.op, polled, pollAnswer, pollState]
  | succ k ih =>
    intro fuel curr s err hk hok hf
    obtain ⟨n, rfl⟩ : ∃ n, fuel = n + 1 := ⟨fuel - 1, by omega⟩
    have h0 : (w.GetString cfg "tunable-string-example" s).1.2 = none := hok 0 (Nat.succ_pos k)
    obtain ⟨h1, h2, h3, h4⟩ := ih n (w.GetString cfg "tunable-string-example" s).1.1
      (w.Sleep second (w.GetString cfg "tunable-string-example" s).2) err (by omega)
      (fun i hi => by rw [← pollAnswer_shift]; exact hok (i + 1) (Nat.succ_lt_succ hi))
      (by rw [← pollAnswer_shift]; exact hf)
    rw [pollLoop_succ_ok w cfg n curr s h0]
    refine ⟨h1, ?_, ?_, ?_⟩
    · rw [Result.emits_trace, List.getLast?_append, h2, pollAnswer_shift]
      rfl
    · rw [Result.emits_trace, callsOf_append, callsOf_getString_turn, List.length_append, h3]
      simp
      omega
    · rw [Result.emits_trace, polled_append, polled_turn, h4, List.range_succ_eq_map,
        List.map_cons, List.map_map]
      simp only [List.singleton_append, List.cons.injEq]
      refine ⟨rfl, List.map_congr_left ?_⟩
      intro i _
      simp [pollAnswer_shift]

/-! ## The shape of an execution -/

/-- The entry after `Read` is a log entry. -/
theorem readLog_isLog (m : Option SensorOutput) (e : Option GoError) :
    ∃ l f a, readLog m e = Event.log l f a := by
  unfold readLog
  split
  · exact ⟨_, _, _, rfl⟩
  · split <;> exact ⟨_, _, _, rfl⟩

/-- The entry after `ReadBytes` is a log entry. -/
theorem readBytesLog_isLog (raw : List Nat) (e : Option GoError) :
    ∃ l f a, readBytesLog raw e = Event.log l f a := by
  unfold readBytesLog
  split <;> exact ⟨_, _, _, rfl⟩

/-- Every execution of `run` either ends early, the same way for every fuel, or
reaches the loop after the full sequence of calls of lines 24-104, with `curr`
the tunable string read at line 41. -/
theorem run_shape {σ : Type} (w : World σ) (service : Service)
    (configuration : Option ServiceConfiguration) (s : σ) :
    (∃ o tr s1, EarlyExit service configuration o tr ∧
      ∀ fuel, run w service configuration fuel s = ⟨o, s1, tr⟩) ∨
    (∃ cfg name version x v2 v3 ws t rs m e9 l9 f9 a9 raw e10 l10 f10 a10 s1,
      configuration = some cfg ∧ service.Name = some name ∧ service.Version = some version ∧
      Event.log l9 f9 a9 = readLog m e9 ∧ Event.log l10 f10 a10 = readBytesLog raw e10 ∧
      (∀ fuel, run w service configuration fuel s =
        Result.emits (configTrace name version x v2 v3 ++ writeTrace ws t ++
          readTrace rs m e9 l9 f9 a9 raw e10 l10 f10 a10) (pollLoop w cfg fuel v3 s1)) ∧
      (∀ m1 fuel, run (w.withReadMessage m1) service configuration fuel s =
        Result.emits (configTrace name version x v2 v3 ++ writeTrace ws t ++
          [Event.getReadStream "example-input" "rpm-data" (some rs), Event.read rs m1 e9,
           readLog m1 e9, Event.readBytes rs raw e10, Event.log l10 f10 a10])
          (pollLoop w cfg fuel v3 s1))) := by
  cases configuration with
  | none => exact Or.inl ⟨_, _, s, EarlyExit.nilConfiguration rfl, fun _ => rfl⟩
  | some cfg =>
  cases hN : service.Name with
  | none =>
    exact Or.inl ⟨_, _, s, EarlyExit.nilName (by simp) hN, fun _ => by simp [run, hN]⟩
  | some name =>
  cases hV : service.Version with
  | none =>
    exact Or.inl ⟨_, _, s, EarlyExit.nilVersion (by simp) hV, fun _ => by simp [run, hN, hV]⟩
  | some version =>
  rcases h1 : w.GetFloatSafe cfg "number-example" s with ⟨⟨x, e1⟩, s1⟩
  cases e1 with
  | some err =>
    exact Or.inl ⟨_, _, s1, EarlyExit.numberFailed name version x err,
      fun _ => by simp [run, hN, hV, h1, Result.emit, helloLog]⟩
  | none =>
  rcases h2 : w.GetStringSafe cfg "string-example" s1 with ⟨⟨v2, e2⟩, s2⟩
  cases e2 with
  | some err =>
    exact Or.inl ⟨_, _, s2, EarlyExit.stringFailed name version x v2 err,
      fun _ => by simp [run, hN, hV, h1, h2, Result.emit, helloLog, numberTrace]⟩
  | none =>
  rcases h3 : w.GetStringSafe cfg "tunable-string-example" s2 with ⟨⟨v3, e3⟩, s3⟩
  cases e3 with
  | some err =>
    exact Or.inl ⟨_, _, s3, EarlyExit.tunableFailed name version x v2 v3 err,
      fun _ => by simp [run, hN, hV, h1, h2, h3, Result.emit, helloLog, numberTrace, stringTrace]⟩
  | none =>
  rcases h4 : w.GetWriteStream service "example-output" s3 with ⟨ows, s4⟩
  cases ows with
  | none =>
    exact Or.inl ⟨_, _, s4, EarlyExit.noWriteStream name version x v2 v3,
      fun _ => by
        simp [run, hN, hV, h1, h2, h3, h4, Result.emit, helloLog, numberTrace, stringTrace,
          tunableTrace, configTrace]⟩
  | some ws =>
  rcases h5 : w.Now s4 with ⟨t, s5⟩
  rcases h6 : w.Write ws (rpmPayload t) s5 with ⟨e6, s6⟩
  cases e6 with
  | some err =>
    exact Or.inl ⟨_, _, s6, EarlyExit.writeFailed name version x v2 v3 ws t err,
      fun _ => by
        simp [run, hN, hV, h1, h2, h3, h4, h5, h6, Result.emit, helloLog, numberTrace,
          stringTrace, tunableTrace, configTrace]⟩
  | none =>
  rcases h7 : w.WriteBytes ws helloWorld s6 with ⟨e7, s7⟩
  cases e7 with
  | some err =>
    exact Or.inl ⟨_, _, s7, EarlyExit.writeBytesFailed name version x v2 v3 ws t err,
      fun _ => by
        simp [run, hN, hV, h1, h2, h3, h4, h5, h6, h7, Result.emit, helloLog, numberTrace,
          stringTrace, tunableTrace, configTrace]⟩
  | none =>
  rcases h8 : w.GetReadStream service "example-input" "rpm-data" s7 with ⟨ors, s8⟩
  cases ors with
  | none =>
    exact Or.inl ⟨_, _, s8, EarlyExit.noReadStream name version x v2 v3 ws t,
      fun _ => by
        simp [run, hN, hV, h1, h2, h3, h4, h5, h6, h7, h8, Result.emit, helloLog, numberTrace,
          stringTrace, tunableTrace, configTrace, writeTrace]⟩
  | some rs =>
  rcases h9 : w.Read rs s8 with ⟨⟨m, e9⟩, s9⟩
  rcases h10 : w.ReadBytes rs s9 with ⟨⟨raw, e10⟩, s10⟩
  obtain ⟨l9, f9, a9, hl9⟩ := readLog_isLog m e9
  obtain ⟨l10, f10, a10, hl10⟩ := readBytesLog_isLog raw e10
  exact Or.inr ⟨cfg, name, version, x, v2, v3, ws, t, rs, m, e9, l9, f9, a9, raw, e10,
    l10, f10, a10, s10, rfl, rfl, rfl, hl9.symm, hl10.symm,
    fun _ => by
      simp [run, hN, hV, h1, h2, h3, h4, h5, h6, h7, h8, h9, h10, Result.emit, Result.emits,
        helloLog, numberTrace, stringTrace, tunableTrace, configTrace, writeTrace, readTrace,
        hl9, hl10],
    fun m1 fuel => by
      rw [← pollLoop_withReadMessage w m1]
      simp [run, World.withReadMessage, hN, hV, h1, h2, h3, h4, h5, h6, h7, h8, h9, h10,
        Result.emit, Result.emits, helloLog, numberTrace, stringTrace, tunableTrace,
        configTrace, writeTrace, hl10]⟩

/-- An execution that stands at the entry of the loop with no fuel is, for
every fuel, the calls made up to there followed by the loop; none of the calls
made up to there is a poll or a sleep, and none reports an update. -/
theorem run_loop_entry {σ : Type} (w : World σ) (service : Service)
    (configuration : Option ServiceConfiguration) (s : σ) (v : String)
    (h0 : (run w service configuration 0 s).outcome = Outcome.running v) :
    ∃ cfg, configuration = some cfg ∧
      (∀ fuel, run w service configuration fuel s =
        Result.emits (run w service configuration 0 s).trace
          (pollLoop w cfg fuel v (run w service configuration 0 s).world)) ∧
      Event.getStringSafe "tunable-string-example" v none
        ∈ (run w service configuration 0 s).trace ∧
      callsOf Op.getString (run w service configuration 0 s).trace = [] ∧
      callsOf Op.sleep (run w service configuration 0 s).trace = [] ∧
      polled (run w service configuration 0 s).trace = [] ∧
      updates (run w service configuration 0 s).trace = [] := by
  rcases run_shape w service configuration s with ⟨o, tr, s1, hx, hrun⟩ | ⟨c, name, version, x,
    v2, v3, ws1, t, rs1, m0, e9, l9, f9, a9, raw1, e10, l10, f10, a10, s1, hc, -, -, h9, h10,
    hrun, -⟩
  · exfalso
    rw [hrun 0] at h0
    cases hx <;> simp at h0
  · have hz : run w service configuration 0 s =
        ⟨Outcome.running v3, s1, configTrace name version x v2 v3 ++ writeTrace ws1 t ++
          readTrace rs1 m0 e9 l9 f9 a9 raw1 e10 l10 f10 a10⟩ := by
      rw [hrun 0]
      simp [pollLoop, Result.emits]
    rw [hz] at h0 ⊢
    simp only [Outcome.running.injEq] at h0
    subst h0
    refine ⟨c, hc, fun fuel => hrun fuel, ?_, ?_, ?_, ?_, ?_⟩
    · simp [configTrace, numberTrace, stringTrace, tunableTrace]
    · simp [configTrace, numberTrace, stringTrace, tunableTrace, writeTrace, readTrace,
        helloLog, callsOf, Event.op]
    · simp [configTrace, numberTrace, stringTrace, tunableTrace, writeTrace, readTrace,
        helloLog, callsOf, Event.op]
    · simp [configTrace, numberTrace, stringTrace, tunableTrace, writeTrace, readTrace,
        helloLog, polled]
    · have u9 : updates [Event.log l9 f9 a9] = [] := by
        rw [h9]
        unfold readLog
        split
        · simp [updates]
        · split <;> simp [updates]
      have u10 : updates [Event.log l10 f10 a10] = [] := by
        rw [h10]
        unfold readBytesLog
        split <;> simp [updates]
      have hsplit : readTrace rs1 m0 e9 l9 f9 a9 raw1 e10 l10 f10 a10 =
          [Event.getReadStream "example-input" "rpm-data" (some rs1), Event.read rs1 m0 e9] ++
          [Event.log l9 f9 a9] ++ [Event.readBytes rs1 raw1 e10] ++ [Event.log l10 f10 a10] := rfl
      rw [updates_append, updates_append, hsplit, updates_append, updates_append,
        updates_append, u9, u10]
      simp [configTrace, numberTrace, stringTrace, tunableTrace, writeTrace, helloLog, updates]

/-- Values that never differ from the first have no changes. -/
theorem changes_const {α : Type} [DecidableEq α] (c : α) (vs : List α)
    (h : ∀ v ∈ vs, v = c) : changes c vs = [] := by
  induction vs with
  | nil => rfl
  | cons v vs ih =>
    have hv : v = c := h v (List.mem_cons_self _ _)
    subst hv
    rw [changes_cons, ih (fun u hu => h u (List.mem_cons_of_mem _ hu))]
    simp

/-- The changes of values that are a reading `V` of indices are the reading of
the neighbouring indices whose values differ. -/
theorem changes_map {α : Type} [DecidableEq α] (V : Nat → α) (is : List Nat) :
    ∀ i0, changes (V i0) (is.map V)
      = ((List.zip (i0 :: is) is).filter (fun p => V p.1 ≠ V p.2)).map
          (fun p => (V p.1, V p.2)) := by
  induction is with
  | nil => intro i0; rfl
  | cons i1 is ih =>
    intro i0
    rw [List.map_cons, changes_cons, ih i1]
    by_cases h : V i0 = V i1 <;> simp [List.filter_cons, h]

/-- Neighbours in a non-decreasing list of indices. -/
theorem zip_sorted (is : List Nat) :
    ∀ i0, (i0 :: is).Sorted (· ≤ ·) →
      (List.zip (i0 :: is) is).Pairwise (fun p q => p.2 ≤ q.1) ∧
      ∀ p ∈ List.zip (i0 :: is) is, p.1 ≤ p.2 := by
  induction is with
  | nil => intro i0 _; simp
  | cons i1 is ih =>
    intro i0 h
    have h1 : (i1 :: is).Sorted (· ≤ ·) := List.Sorted.of_cons h
    have h01 : i0 ≤ i1 := List.rel_of_sorted_cons h i1 (List.mem_cons_self _ _)
    obtain ⟨ih1, ih2⟩ := ih i1 h1
    refine ⟨?_, ?_⟩
    · rw [List.zip_cons_cons, List.pairwise_cons]
      refine ⟨?_, ih1⟩
      rintro ⟨a, b⟩ hq
      have ha : a ∈ i1 :: is := (List.of_mem_zip hq).1
      rcases List.mem_cons.mp ha with rfl | ha
      · exact le_refl _
      · exact List.rel_of_sorted_cons h1 a ha
    · intro p hp
      rw [List.zip_cons_cons, List.mem_cons] at hp
      rcases hp with rfl | hp
      · exact h01
      · exact ih2 p hp

/-- The last of the values read from indices. -/
theorem getLastD_map {α β : Type} (f : α → β) (l : List α) :
    ∀ d, (l.map f).getLastD (f d) = f (l.getLastD d) := by
  induction l with
  | nil => intro d; rfl
  | cons a l ih => intro d; rw [List.map_cons, List.getLastD_cons, List.getLastD_cons, ih]

/-- Every poll of the calm world returns no error. -/
theorem calm_polls (cfg : ServiceConfiguration) (s : Sim) (i : Nat) :
    (pollAnswer (scripted calm) cfg s i).2 = none := by
  have h : ∀ n, (calm.polls.getD n calm.later).2 = none := by
    intro n
    rcases n with _ | _ | _ | _ | n <;> rfl
  exact h _

/-! ## Claims -/

/-- C10: with a nil configuration `run` returns the error "configuration cannot
be accessed" for every service value, also one whose `Name` or `Version` is nil,
having made no call at all (no dereference of the identity, no configuration
read, no stream resolution, no write, no read) and left the world untouched; and
when the configuration, `service.Name` and `service.Version` are all non-nil,
`run` dereferences no nil pointer, however many turns of the loop are run. -/
theorem C10_nil_configuration_guard {σ : Type} (w : World σ) (service : Service) (s : σ)
    (fuel : Nat) :
    ((run w service none fuel s).outcome
        = Outcome.returned (some "configuration cannot be accessed") ∧
      (run w service none fuel s).trace = [] ∧
      (run w service none fuel s).world = s) ∧
    (∀ cfg : ServiceConfiguration, service.Name ≠ none → service.Version ≠ none →
      (run w service (some cfg) fuel s).outcome ≠ Outcome.nilDereference) := by
  refine ⟨⟨rfl, rfl, rfl⟩, ?_⟩
  intro cfg hn hv
  rcases run_shape w service (some cfg) s with ⟨o, tr, s1, hx, hrun⟩ | ⟨c, name, version, x, v2,
    v3, ws, t, rs, m, e9, l9, f9, a9, raw, e10, l10, f10, a10, s1, -, -, -, -, -, hrun, -⟩
  · rw [hrun fuel]
    cases hx <;> simp_all
  · rw [hrun fuel]
    rcases pollLoop_outcome w c fuel v3 s1 with ⟨c1, h⟩ | ⟨e, h⟩ <;> simp [h]

/-- C2: a `GetFloatSafe` or `GetStringSafe` call of `run` that returns an error
makes `run` return the error "failed to get configuration: " followed by its
text; that call is the last call `run` makes, every call of the execution is a
log entry or one of the safe configuration reads (no stream is resolved,
nothing is written or read, nothing is polled), all reads before it returned
no error, and the reads that come after it in the program are not made. -/
theorem C2_configuration_read_errors {σ : Type} (w : World σ) (service : Service)
    (configuration : Option ServiceConfiguration) (fuel : Nat) (s : σ)
    (e : Event) (err : GoError)
    (hmem : e ∈ (run w service configuration fuel s).trace)
    (hfail : (∃ key x, e = Event.getFloatSafe key x (some err)) ∨
      (∃ key v, e = Event.getStringSafe key v (some err))) :
    (run w service configuration fuel s).outcome
        = Outcome.returned (some (Errorf "failed to get configuration: " err)) ∧
    (run w service configuration fuel s).trace.getLast? = some e ∧
    (∀ e1 ∈ (run w service configuration fuel s).trace,
      e1.op = Op.log ∨ e1.op = Op.getFloatSafe ∨ e1.op = Op.getStringSafe) ∧
    ((∃ x, e = Event.getFloatSafe "number-example" x (some err)) ∧
        callsOf Op.getFloatSafe (run w service configuration fuel s).trace = [e] ∧
        callsOf Op.getStringSafe (run w service configuration fuel s).trace = [] ∨
      (∃ v, e = Event.getStringSafe "string-example" v (some err)) ∧
        (callsOf Op.getFloatSafe (run w service configuration fuel s).trace).length = 1 ∧
        callsOf Op.getStringSafe (run w service configuration fuel s).trace = [e] ∨
      (∃ v v2, e = Event.getStringSafe "tunable-string-example" v (some err) ∧
        (callsOf Op.getFloatSafe (run w service configuration fuel s).trace).length = 1 ∧
        callsOf Op.getStringSafe (run w service configuration fuel s).trace
          = [Event.getStringSafe "string-example" v2 none, e])) := by
  rcases run_shape w service configuration s with ⟨o, tr, s1, hx, hrun⟩ | ⟨c, name, version, x,
    v2, v3, ws, t, rs, m, e9, l9, f9, a9, raw, e10, l10, f10, a10, s1, -, -, -, -, -, hrun, -⟩
  · rw [hrun fuel] at hmem ⊢
    cases hx <;>
      rcases hfail with ⟨key, x1, rfl⟩ | ⟨key, x1, rfl⟩ <;>
      simp [configTrace, numberTrace, stringTrace, tunableTrace, writeTrace, helloLog] at hmem <;>
      simp [configTrace, numberTrace, stringTrace, tunableTrace, writeTrace, helloLog, hmem,
        Event.op, callsOf, List.getLast?]
  · exfalso
    rw [hrun fuel] at hmem
    simp only [Result.emits_trace, List.mem_append] at hmem
    rcases hmem with hmem | hmem
    · rcases hfail with ⟨key, x1, rfl⟩ | ⟨key, x1, rfl⟩ <;>
        simp [configTrace, numberTrace, stringTrace, tunableTrace, writeTrace, readTrace,
          helloLog] at hmem
    · have h := pollLoop_ops w c fuel v3 s1 e hmem
      rcases hfail with ⟨key, x1, rfl⟩ | ⟨key, x1, rfl⟩ <;> simp [Event.op] at h

/-- C10, at a service without identity and at the calm world. -/
theorem C10_nil_configuration_guard_witness :
    (run (scripted calm) anonymous none 3 boot).outcome
        = Outcome.returned (some "configuration cannot be accessed") ∧
    rover.Name ≠ none ∧ rover.Version ≠ none ∧
    (run (scripted calm) rover (some ⟨0⟩) 3 boot).outcome ≠ Outcome.nilDereference :=
  ⟨(C10_nil_configuration_guard (scripted calm) anonymous boot 3).1.1, by decide, by decide,
    (C10_nil_configuration_guard (scripted calm) rover boot 3).2 ⟨0⟩ (by decide) (by decide)⟩

/-- C2, at a world whose "string-example" cannot be read. -/
theorem C2_configuration_read_errors_witness :
    Event.getStringSafe "string-example" "" (some "no such key")
        ∈ (run (scripted { calm with string := ("", some "no such key") }) rover (some ⟨0⟩) 2
            boot).trace ∧
    (run (scripted { calm with string := ("", some "no such key") }) rover (some ⟨0⟩) 2
        boot).outcome
      = Outcome.returned (some (Errorf "failed to get configuration: " "no such key")) :=
  ⟨by decide,
    (C2_configuration_read_errors (scripted { calm with string := ("", some "no such key") })
      rover (some ⟨0⟩) 2 boot (Event.getStringSafe "string-example" "" (some "no such key"))
      "no such key" (by decide) (Or.inr ⟨_, _, rfl⟩)).1⟩

/-- C1: when `GetWriteStream` returns nil, `run` returns the error "failed to get
write stream", having made no `Write`, `WriteBytes`, `GetReadStream`, `Read` or
`ReadBytes` call; when `GetReadStream` returns nil, `run` returns the error
"failed to get read stream", having made no `Read` or `ReadBytes` call.  In both
cases the three configuration reads before it succeeded, each resolver that was
called was called exactly once, and the loop was never entered: nothing was
polled and the outcome is a return for every fuel. -/
theorem C1_unresolved_stream_is_fatal {σ : Type} (w : World σ) (service : Service)
    (configuration : Option ServiceConfiguration) (fuel : Nat) (s : σ) :
    (Event.getWriteStream "example-output" none ∈ (run w service configuration fuel s).trace →
      (run w service configuration fuel s).outcome
          = Outcome.returned (some "failed to get write stream") ∧
      (∀ e ∈ (run w service configuration fuel s).trace,
        e.op ≠ Op.write ∧ e.op ≠ Op.writeBytes ∧ e.op ≠ Op.getReadStream ∧
        e.op ≠ Op.read ∧ e.op ≠ Op.readBytes ∧ e.op ≠ Op.getString) ∧
      callsOf Op.getWriteStream (run w service configuration fuel s).trace
          = [Event.getWriteStream "example-output" none] ∧
      (run w service configuration fuel s).trace.getLast?
          = some (Event.getWriteStream "example-output" none)) ∧
    (Event.getReadStream "example-input" "rpm-data" none
        ∈ (run w service configuration fuel s).trace →
      (run w service configuration fuel s).outcome
          = Outcome.returned (some "failed to get read stream") ∧
      (∀ e ∈ (run w service configuration fuel s).trace,
        e.op ≠ Op.read ∧ e.op ≠ Op.readBytes ∧ e.op ≠ Op.getString) ∧
      (callsOf Op.getWriteStream (run w service configuration fuel s).trace).length = 1 ∧
      callsOf Op.getReadStream (run w service configuration fuel s).trace
          = [Event.getReadStream "example-input" "rpm-data" none] ∧
      (run w service configuration fuel s).trace.getLast?
          = some (Event.getReadStream "example-input" "rpm-data" none)) := by
  rcases run_shape w service configuration s with ⟨o, tr, s1, hx, hrun⟩ | ⟨c, name, version, x,
    v2, v3, ws, t, rs, m, e9, l9, f9, a9, raw, e10, l10, f10, a10, s1, -, -, -, -, -, hrun, -⟩
  · rw [hrun fuel]
    cases hx <;>
      simp [configTrace, numberTrace, stringTrace, tunableTrace, writeTrace, helloLog,
        Event.op, callsOf, List.getLast?]
  · rw [hrun fuel]
    constructor <;> intro hmem <;> exfalso <;>
      simp only [Result.emits_trace, List.mem_append] at hmem <;>
      rcases hmem with hmem | hmem
    · simp [configTrace, numberTrace, stringTrace, tunableTrace, writeTrace, readTrace,
        helloLog] at hmem
    · have h := pollLoop_ops w c fuel v3 s1 _ hmem
      simp [Event.op] at h
    · simp [configTrace, numberTrace, stringTrace, tunableTrace, writeTrace, readTrace,
        helloLog] at hmem
    · have h := pollLoop_ops w c fuel v3 s1 _ hmem
      simp [Event.op] at h

/-- C1, at a world without the output stream and at one without the input stream. -/
theorem C1_unresolved_stream_is_fatal_witness :
    (Event.getWriteStream "example-output" none
        ∈ (run (scripted { calm with writeStream := none }) rover (some ⟨0⟩) 4 boot).trace ∧
      (run (scripted { calm with writeStream := none }) rover (some ⟨0⟩) 4 boot).outcome
        = Outcome.returned (some "failed to get write stream")) ∧
    (Event.getReadStream "example-input" "rpm-data" none
        ∈ (run (scripted { calm with readStream := none }) rover (some ⟨0⟩) 4 boot).trace ∧
      (run (scripted { calm with readStream := none }) rover (some ⟨0⟩) 4 boot).outcome
        = Outcome.returned (some "failed to get read stream")) :=
  ⟨⟨by decide,
      ((C1_unresolved_stream_is_fatal (scripted { calm with writeStream := none }) rover
        (some ⟨0⟩) 4 boot).1 (by decide)).1⟩,
    ⟨by decide,
      ((C1_unresolved_stream_is_fatal (scripted { calm with readStream := none }) rover
        (some ⟨0⟩) 4 boot).2 (by decide)).1⟩⟩

/-- C6: a `Write` of `run` that returns an error makes `run` return the error
"failed to write to stream: " followed by its text, without any `WriteBytes`
call; a `WriteBytes` of `run` that returns an error was handed the bytes of
"Hello world!" after a `Write` that returned no error, and makes `run` return
the error of the same form.  In both cases the failing call is the last call of
the execution: the input stream is neither resolved nor read, nothing is polled. -/
theorem C6_write_errors_returned {σ : Type} (w : World σ) (service : Service)
    (configuration : Option ServiceConfiguration) (fuel : Nat) (s : σ)
    (ws : WriteStream) (err : GoError) :
    (∀ p, Event.write ws p (some err) ∈ (run w service configuration fuel s).trace →
      (run w service configuration fuel s).outcome
          = Outcome.returned (some (Errorf "failed to write to stream: " err)) ∧
      (run w service configuration fuel s).trace.getLast? = some (Event.write ws p (some err)) ∧
      (∀ e ∈ (run w service configuration fuel s).trace,
        e.op ≠ Op.writeBytes ∧ e.op ≠ Op.getReadStream ∧ e.op ≠ Op.read ∧
        e.op ≠ Op.readBytes ∧ e.op ≠ Op.getString)) ∧
    (∀ raw, Event.writeBytes ws raw (some err) ∈ (run w service configuration fuel s).trace →
      raw = helloWorld ∧
      (run w service configuration fuel s).outcome
          = Outcome.returned (some (Errorf "failed to write to stream: " err)) ∧
      (run w service configuration fuel s).trace.getLast?
          = some (Event.writeBytes ws raw (some err)) ∧
      (∃ p, callsOf Op.write (run w service configuration fuel s).trace
          = [Event.write ws p none]) ∧
      (∀ e ∈ (run w service configuration fuel s).trace,
        e.op ≠ Op.getReadStream ∧ e.op ≠ Op.read ∧ e.op ≠ Op.readBytes ∧
        e.op ≠ Op.getString)) := by
  rcases run_shape w service configuration s with ⟨o, tr, s1, hx, hrun⟩ | ⟨c, name, version, x,
    v2, v3, ws1, t, rs, m, e9, l9, f9, a9, raw1, e10, l10, f10, a10, s1, -, -, -, -, -, hrun, -⟩
  · rw [hrun fuel]
    cases hx <;>
      simp [configTrace, numberTrace, stringTrace, tunableTrace, writeTrace, helloLog,
        Event.op, callsOf, List.getLast?]
    all_goals
      intros
      subst_vars
      simp
  · rw [hrun fuel]
    constructor <;> intro p hmem <;> exfalso <;>
      simp only [Result.emits_trace, List.mem_append] at hmem <;>
      rcases hmem with hmem | hmem
    · simp [configTrace, numberTrace, stringTrace, tunableTrace, writeTrace, readTrace,
        helloLog] at hmem
    · have h := pollLoop_ops w c fuel v3 s1 _ hmem
      simp [Event.op] at h
    · simp [configTrace, numberTrace, stringTrace, tunableTrace, writeTrace, readTrace,
        helloLog] at hmem
    · have h := pollLoop_ops w c fuel v3 s1 _ hmem
      simp [Event.op] at h

/-- C6, at a world whose typed write fails and at one whose raw write fails. -/
theorem C6_write_errors_returned_witness :
    (Event.write ⟨1⟩ (rpmPayload 1700000000000) (some "broken pipe")
        ∈ (run (scripted { calm with write := some "broken pipe" }) rover (some ⟨0⟩) 4
            boot).trace ∧
      (run (scripted { calm with write := some "broken pipe" }) rover (some ⟨0⟩) 4
          boot).outcome
        = Outcome.returned (some (Errorf "failed to write to stream: " "broken pipe"))) ∧
    (Event.writeBytes ⟨1⟩ helloWorld (some "broken pipe")
        ∈ (run (scripted { calm with writeBytes := some "broken pipe" }) rover (some ⟨0⟩) 4
            boot).trace ∧
      (run (scripted { calm with writeBytes := some "broken pipe" }) rover (some ⟨0⟩) 4
          boot).outcome
        = Outcome.returned (some (Errorf "failed to write to stream: " "broken pipe"))) :=
  ⟨⟨by decide,
      ((C6_write_errors_returned (scripted { calm with write := some "broken pipe" }) rover
        (some ⟨0⟩) 4 boot ⟨1⟩ "broken pipe").1 (rpmPayload 1700000000000) (by decide)).1⟩,
    ⟨by decide,
      ((C6_write_errors_returned (scripted { calm with writeBytes := some "broken pipe" }) rover
        (some ⟨0⟩) 4 boot ⟨1⟩ "broken pipe").2 helloWorld (by decide)).2.1⟩⟩

/-- C3: every typed write of `run` goes to the stream that `GetWriteStream`
resolved for "example-output" and carries the message built from the reading
`t` of the clock taken just before: `sensorId` 404, `timestamp` `uint64(t)`,
`status` 0 and the RPM variant with `leftRpm` 1000 and `rightRpm` 1200,
whatever `t` is.  Hence over any channel whose decoding inverts its encoding
the message read back has the RPM variant and exposes `leftRpm` 1000 and
`rightRpm` 1200. -/
theorem C3_typed_write_payload {σ : Type} (w : World σ) (service : Service)
    (configuration : Option ServiceConfiguration) (fuel : Nat) (s : σ)
    (ws : WriteStream) (p : SensorOutput) (err : Option GoError)
    (hmem : Event.write ws p err ∈ (run w service configuration fuel s).trace) :
    Event.getWriteStream "example-output" (some ws)
        ∈ (run w service configuration fuel s).trace ∧
    callsOf Op.write (run w service configuration fuel s).trace = [Event.write ws p err] ∧
    (∃ t, callsOf Op.now (run w service configuration fuel s).trace = [Event.now t] ∧
      p.Timestamp = uint64 t) ∧
    p.SensorId = 404 ∧ p.Status = 0 ∧
    p.SensorOutput = some (SensorOutputKind.RpmOuput
      (some { LeftRpm := GoFloat.finite 1000, RightRpm := GoFloat.finite 1200 })) ∧
    (∀ (Wire : Type) (encode : SensorOutput → Wire) (decode : Wire → Option SensorOutput),
      (∀ m, decode (encode m) = some m) →
      ∃ m, decode (encode p) = some m ∧ GetRpmOuput (some m) ≠ none ∧
        GetLeftRpm (GetRpmOuput (some m)) = GoFloat.finite 1000 ∧
        GetRightRpm (GetRpmOuput (some m)) = GoFloat.finite 1200) := by
  have key : ∀ t : Int, p = rpmPayload t →
      p.Timestamp = uint64 t ∧ p.SensorId = 404 ∧ p.Status = 0 ∧
      p.SensorOutput = some (SensorOutputKind.RpmOuput
        (some { LeftRpm := GoFloat.finite 1000, RightRpm := GoFloat.finite 1200 })) ∧
      (∀ (Wire : Type) (encode : SensorOutput → Wire) (decode : Wire → Option SensorOutput),
        (∀ m, decode (encode m) = some m) →
        ∃ m, decode (encode p) = some m ∧ GetRpmOuput (some m) ≠ none ∧
          GetLeftRpm (GetRpmOuput (some m)) = GoFloat.finite 1000 ∧
          GetRightRpm (GetRpmOuput (some m)) = GoFloat.finite 1200) := by
    intro t ht
    subst ht
    refine ⟨rfl, rfl, rfl, rfl, ?_⟩
    intro Wire encode decode hinv
    exact ⟨_, hinv _, by simp [GetRpmOuput, rpmPayload], by simp [GetRpmOuput, GetLeftRpm, rpmPayload],
      by simp [GetRpmOuput, GetRightRpm, rpmPayload]⟩
  rcases run_shape w service configuration s with ⟨o, tr, s1, hx, hrun⟩ | ⟨c, name, version, x,
    v2, v3, ws1, t, rs, m, e9, l9, f9, a9, raw1, e10, l10, f10, a10, s1, -, -, -, -, -, hrun, -⟩
  · rw [hrun fuel] at hmem ⊢
    cases hx <;>
      simp [configTrace, numberTrace, stringTrace, tunableTrace, writeTrace, helloLog] at hmem
    all_goals
      obtain ⟨rfl, rfl, rfl⟩ := hmem
      obtain ⟨h1, h2, h3, h4, h5⟩ := key _ rfl
      refine ⟨?_, ?_, ⟨_, ?_, h1⟩, h2, h3, h4, h5⟩ <;>
        simp [configTrace, numberTrace, stringTrace, tunableTrace, writeTrace, helloLog,
          Event.op, callsOf]
  · rw [hrun fuel] at hmem ⊢
    simp only [Result.emits_trace, List.mem_append] at hmem
    rcases hmem with hmem | hmem
    · simp [configTrace, numberTrace, stringTrace, tunableTrace, writeTrace, readTrace,
        helloLog] at hmem
      obtain ⟨rfl, rfl, rfl⟩ := hmem
      obtain ⟨h1, h2, h3, h4, h5⟩ := key _ rfl
      refine ⟨?_, ?_, ⟨t, ?_, h1⟩, h2, h3, h4, h5⟩
      · simp [configTrace, numberTrace, stringTrace, tunableTrace, writeTrace, helloLog]
      · simp only [Result.emits_trace, callsOf_append]
        rw [callsOf_pollLoop _ _ _ _ _ _ (by decide) (by decide) (by decide)]
        simp [configTrace, numberTrace, stringTrace, tunableTrace, writeTrace, readTrace,
          helloLog, Event.op, callsOf]
      · simp only [Result.emits_trace, callsOf_append]
        rw [callsOf_pollLoop _ _ _ _ _ _ (by decide) (by decide) (by decide)]
        simp [configTrace, numberTrace, stringTrace, tunableTrace, writeTrace, readTrace,
          helloLog, Event.op, callsOf]
    · have h := pollLoop_ops w c fuel v3 s1 _ hmem
      simp [Event.op] at h

/-- C3, at the calm world, whose clock reads 1700000000000. -/
theorem C3_typed_write_payload_witness :
    Event.write ⟨1⟩ (rpmPayload 1700000000000) none
        ∈ (run (scripted calm) rover (some ⟨0⟩) 2 boot).trace ∧
    (rpmPayload 1700000000000).SensorId = 404 ∧
    (rpmPayload 1700000000000).SensorOutput = some (SensorOutputKind.RpmOuput
      (some { LeftRpm := GoFloat.finite 1000, RightRpm := GoFloat.finite 1200 })) :=
  ⟨by decide,
    (C3_typed_write_payload (scripted calm) rover (some ⟨0⟩) 2 boot ⟨1⟩
      (rpmPayload 1700000000000) none (by decide)).2.2.2.1,
    (C3_typed_write_payload (scripted calm) rover (some ⟨0⟩) 2 boot ⟨1⟩
      (rpmPayload 1700000000000) none (by decide)).2.2.2.2.2.1⟩

/-- C4: when a `Read` of `run` returns a message without error, the one entry
`run` logs next is decided by the RPM variant: absent (also for a nil message),
the entry is the error entry "expected RPM data, but got something else" and
reads no field; present, it is the info entry with `leftRpm` and `rightRpm` of
the variant.  Either way `run` does not return there: it goes on with
`ReadBytes` on the same stream and enters the loop with the tunable string read
earlier.  What follows the entry does not depend on the message: in the world
that hands back any other message `m1` instead, the calls before `Read`, the
calls after the entry and the outcome are the same, for every fuel. -/
theorem C4_absent_variant_is_checked {σ : Type} (w : World σ) (service : Service)
    (configuration : Option ServiceConfiguration) (fuel : Nat) (s : σ)
    (rs : ReadStream) (m : Option SensorOutput)
    (hmem : Event.read rs m none ∈ (run w service configuration fuel s).trace) :
    (GetRpmOuput m = none →
      readLog m none = Event.log Level.error "expected RPM data, but got something else" []) ∧
    (∀ r, GetRpmOuput m = some r →
      readLog m none = Event.log Level.info "Received RPM data: %f, %f"
        [Arg.float r.LeftRpm, Arg.float r.RightRpm]) ∧
    ∃ cfg front v raw e10 s1,
      configuration = some cfg ∧
      (∀ e ∈ front, e.op ≠ Op.read ∧ e.op ≠ Op.readBytes ∧ e.op ≠ Op.getString) ∧
      Event.getStringSafe "tunable-string-example" v none ∈ front ∧
      (∀ fuel1, run w service configuration fuel1 s =
        Result.emits (front ++ [Event.read rs m none, readLog m none] ++
          [Event.readBytes rs raw e10, readBytesLog raw e10]) (pollLoop w cfg fuel1 v s1)) ∧
      (∀ m1 fuel1, run (w.withReadMessage m1) service configuration fuel1 s =
        Result.emits (front ++ [Event.read rs m1 none, readLog m1 none] ++
          [Event.readBytes rs raw e10, readBytesLog raw e10]) (pollLoop w cfg fuel1 v s1)) ∧
      (run w service configuration 0 s).outcome = Outcome.running v := by
  refine ⟨fun h => by simp [readLog, h], fun r h => by simp [readLog, h, GetLeftRpm, GetRightRpm],
    ?_⟩
  rcases run_shape w service configuration s with ⟨o, tr, s1, hx, hrun⟩ | ⟨c, name, version, x,
    v2, v3, ws1, t, rs1, m0, e9, l9, f9, a9, raw1, e10, l10, f10, a10, s1, hc, -, -, h9, h10,
    hrun, hrun1⟩
  · exfalso
    rw [hrun fuel] at hmem
    cases hx <;>
      simp [configTrace, numberTrace, stringTrace, tunableTrace, writeTrace, helloLog] at hmem
  · have hmem1 := hmem
    rw [hrun fuel] at hmem1
    simp only [Result.emits_trace, List.mem_append] at hmem1
    rcases hmem1 with hmem1 | hmem1
    · simp [configTrace, numberTrace, stringTrace, tunableTrace, writeTrace, readTrace,
        helloLog] at hmem1
      obtain ⟨rfl, rfl, rfl⟩ := hmem1
      refine ⟨c, configTrace name version x v2 v3 ++ writeTrace ws1 t ++
        [Event.getReadStream "example-input" "rpm-data" (some rs)], v3, raw1, e10, s1, hc,
        ?_, ?_, ?_, ?_, ?_⟩
      · intro e he
        simp [configTrace, numberTrace, stringTrace, tunableTrace, writeTrace, helloLog] at he
        rcases he with he | he | he | he | he | he | he | he | he | he | he | he <;>
          simp [he, Event.op]
      · simp [configTrace, numberTrace, stringTrace, tunableTrace, writeTrace, helloLog]
      · intro fuel1
        rw [hrun fuel1, ← h9, ← h10]
        simp [readTrace]
      · intro m1 fuel1
        rw [hrun1 m1 fuel1, ← h10]
        simp
      · rw [hrun 0]
        rfl
    · have h := pollLoop_ops w c fuel v3 s1 _ hmem1
      simp [Event.op] at h

/-- C4, at the calm world, whose `Read` hands back an RPM message; the other
message is one without any variant. -/
theorem C4_absent_variant_is_checked_witness :
    Event.read ⟨2⟩ (some (rpmPayload 5)) none
        ∈ (run (scripted calm) rover (some ⟨0⟩) 2 boot).trace ∧
    readLog (some (rpmPayload 5)) none = Event.log Level.info "Received RPM data: %f, %f"
      [Arg.float (GoFloat.finite 1000), Arg.float (GoFloat.finite 1200)] :=
  ⟨by decide,
    (C4_absent_variant_is_checked (scripted calm) rover (some ⟨0⟩) 2 boot ⟨2⟩
      (some (rpmPayload 5)) (by decide)).2.1
      { LeftRpm := GoFloat.finite 1000, RightRpm := GoFloat.finite 1200 } (by decide)⟩

/-- C7: once the read stream has resolved, `run` calls `Read` once and
`ReadBytes` once, both on that stream and in that order, each followed by one
log entry, and then enters the loop with `curr` the value `GetStringSafe`
returned for "tunable-string-example", whatever the two reads returned: no
result of `Read` or `ReadBytes` makes `run` return.  A read that returns an
error is logged as the error entry "failed to read from stream: " with its
text. -/
theorem C7_failed_reads_ignored {σ : Type} (w : World σ) (service : Service)
    (configuration : Option ServiceConfiguration) (fuel : Nat) (s : σ) (rs : ReadStream)
    (hmem : Event.getReadStream "example-input" "rpm-data" (some rs)
      ∈ (run w service configuration fuel s).trace) :
    ∃ cfg front v m e9 raw e10 s1,
      configuration = some cfg ∧
      (∀ e ∈ front, e.op ≠ Op.read ∧ e.op ≠ Op.readBytes ∧ e.op ≠ Op.getString) ∧
      Event.getStringSafe "tunable-string-example" v none ∈ front ∧
      (∀ v1 e1, Event.getStringSafe "tunable-string-example" v1 e1 ∈ front →
        v1 = v ∧ e1 = none) ∧
      (∀ fuel1, run w service configuration fuel1 s =
        Result.emits (front ++ [Event.read rs m e9, readLog m e9,
          Event.readBytes rs raw e10, readBytesLog raw e10]) (pollLoop w cfg fuel1 v s1)) ∧
      (∀ fuel1, callsOf Op.read (run w service configuration fuel1 s).trace
          = [Event.read rs m e9] ∧
        callsOf Op.readBytes (run w service configuration fuel1 s).trace
          = [Event.readBytes rs raw e10]) ∧
      (run w service configuration 0 s).outcome = Outcome.running v ∧
      (∀ err, e9 = some err →
        readLog m e9 = Event.log Level.error "failed to read from stream: %v" [Arg.str err]) ∧
      (∀ err, e10 = some err →
        readBytesLog raw e10
          = Event.log Level.error "failed to read from stream: %v" [Arg.str err]) := by
  rcases run_shape w service configuration s with ⟨o, tr, s1, hx, hrun⟩ | ⟨c, name, version, x,
    v2, v3, ws1, t, rs1, m0, e9, l9, f9, a9, raw1, e10, l10, f10, a10, s1, hc, -, -, h9, h10,
    hrun, -⟩
  · exfalso
    rw [hrun fuel] at hmem
    cases hx <;>
      simp [configTrace, numberTrace, stringTrace, tunableTrace, writeTrace, helloLog] at hmem
  · have hmem1 := hmem
    rw [hrun fuel] at hmem1
    simp only [Result.emits_trace, List.mem_append] at hmem1
    rcases hmem1 with hmem1 | hmem1
    · simp [configTrace, numberTrace, stringTrace, tunableTrace, writeTrace, readTrace,
        helloLog] at hmem1
      subst hmem1
      have hfront : ∀ fuel1, run w service configuration fuel1 s =
          Result.emits ((configTrace name version x v2 v3 ++ writeTrace ws1 t ++
            [Event.getReadStream "example-input" "rpm-data" (some rs)]) ++
            [Event.read rs m0 e9, readLog m0 e9, Event.readBytes rs raw1 e10,
              readBytesLog raw1 e10]) (pollLoop w c fuel1 v3 s1) := by
        intro fuel1
        rw [hrun fuel1, ← h9, ← h10]
        simp [readTrace]
      refine ⟨c, configTrace name version x v2 v3 ++ writeTrace ws1 t ++
        [Event.getReadStream "example-input" "rpm-data" (some rs)], v3, m0, e9, raw1, e10, s1,
        hc, ?_, ?_, ?_, hfront, ?_, ?_, ?_, ?_⟩
      · intro e he
        simp [configTrace, numberTrace, stringTrace, tunableTrace, writeTrace, helloLog] at he
        rcases he with he | he | he | he | he | he | he | he | he | he | he | he <;>
          simp [he, Event.op]
      · simp [configTrace, numberTrace, stringTrace, tunableTrace, writeTrace, helloLog]
      · intro v1 e1 he
        simpa [configTrace, numberTrace, stringTrace, tunableTrace, writeTrace, helloLog]
          using he
      · intro fuel1
        rw [hrun fuel1]
        simp only [Result.emits_trace, callsOf_append]
        rw [callsOf_pollLoop _ _ _ _ _ _ (by decide) (by decide) (by decide),
          callsOf_pollLoop _ _ _ _ _ _ (by decide) (by decide) (by decide)]
        simp [configTrace, numberTrace, stringTrace, tunableTrace, writeTrace, readTrace,
          helloLog, Event.op, callsOf]
      · rw [hrun 0]
        rfl
      · intro err h
        simp [readLog, h]
      · intro err h
        simp [readBytesLog, h]
    · have h := pollLoop_ops w c fuel v3 s1 _ hmem1
      simp [Event.op] at h

/-- C7, at a world whose two reads both fail. -/
theorem C7_failed_reads_ignored_witness :
    Event.getReadStream "example-input" "rpm-data" (some ⟨2⟩)
        ∈ (run (scripted { calm with read := (none, some "closed"),
                                     readBytes := ([], some "closed") })
            rover (some ⟨0⟩) 2 boot).trace ∧
    ∃ cfg front v m e9 raw e10 s1,
      (∀ fuel1, run (scripted { calm with read := (none, some "closed"),
                                          readBytes := ([], some "closed") })
          rover (some ⟨0⟩) fuel1 boot =
        Result.emits (front ++ [Event.read ⟨2⟩ m e9, readLog m e9,
          Event.readBytes ⟨2⟩ raw e10, readBytesLog raw e10])
          (pollLoop (scripted { calm with read := (none, some "closed"),
                                          readBytes := ([], some "closed") }) cfg fuel1 v s1)) :=
  ⟨by decide,
    by
      obtain ⟨cfg, front, v, m, e9, raw, e10, s1, -, -, -, -, h, -⟩ :=
        C7_failed_reads_ignored (scripted { calm with read := (none, some "closed"),
                                                      readBytes := ([], some "closed") })
          rover (some ⟨0⟩) 2 boot ⟨2⟩ (by decide)
      exact ⟨cfg, front, v, m, e9, raw, e10, s1, h⟩⟩

/-- C8: let `v0` be the value `GetStringSafe("tunable-string-example")`
returned and `v1 .. vn` the values the successful `GetString` polls returned.
The updates `run` reports are exactly the pairs of neighbours of
`v0, v1, .., vn` that differ, in order; while `run` is still in its loop after
`fuel` turns, it has polled `fuel` values and `curr` is the last of them (`v0`
when there is none).  Consequently no update is reported when the value never
changes, and when the values are the snapshots `V i` of non-decreasing indices,
every report goes from an index to a strictly larger one, no report follows a
report of a larger index, and `curr` is the value of the last index polled. -/
theorem C8_polling_reports_changes {σ : Type} (w : World σ) (service : Service)
    (configuration : Option ServiceConfiguration) (fuel : Nat) (s : σ) (v0 : String)
    (h0 : Event.getStringSafe "tunable-string-example" v0 none
      ∈ (run w service configuration fuel s).trace) :
    updates (run w service configuration fuel s).trace
      = changes v0 (polled (run w service configuration fuel s).trace) ∧
    (∀ c, (run w service configuration fuel s).outcome = Outcome.running c →
      (polled (run w service configuration fuel s).trace).length = fuel ∧
      c = (polled (run w service configuration fuel s).trace).getLastD v0) ∧
    ((∀ v ∈ polled (run w service configuration fuel s).trace, v = v0) →
      updates (run w service configuration fuel s).trace = []) ∧
    (∀ (V : Nat → String) (i0 : Nat) (is : List Nat), v0 = V i0 →
      polled (run w service configuration fuel s).trace = is.map V →
      (i0 :: is).Sorted (· ≤ ·) →
      ∃ ps : List (Nat × Nat),
        updates (run w service configuration fuel s).trace = ps.map (fun p => (V p.1, V p.2)) ∧
        (∀ p ∈ ps, p.1 < p.2) ∧
        ps.Pairwise (fun p q => p.2 ≤ q.1) ∧
        (∀ c, (run w service configuration fuel s).outcome = Outcome.running c →
          c = V (is.getLastD i0))) := by
  have main : updates (run w service configuration fuel s).trace
        = changes v0 (polled (run w service configuration fuel s).trace) ∧
      (∀ c, (run w service configuration fuel s).outcome = Outcome.running c →
        (polled (run w service configuration fuel s).trace).length = fuel ∧
        c = (polled (run w service configuration fuel s).trace).getLastD v0) := by
    rcases run_shape w service configuration s with ⟨o, tr, s1, hx, hrun⟩ | ⟨c, name, version,
      x, v2, v3, ws1, t, rs1, m0, e9, l9, f9, a9, raw1, e10, l10, f10, a10, s1, hc, -, -, h9,
      h10, hrun, -⟩
    · rw [hrun fuel] at h0 ⊢
      cases hx <;>
        simp [configTrace, numberTrace, stringTrace, tunableTrace, writeTrace, helloLog] at h0 <;>
        simp [configTrace, numberTrace, stringTrace, tunableTrace, writeTrace, helloLog,
          updates, polled, changes]
    · have hz : (run w service configuration 0 s).outcome = Outcome.running v3 := by
        rw [hrun 0]; rfl
      obtain ⟨cfg, hcfg, hloop, hin, -, -, hp, hu⟩ := run_loop_entry w service configuration s v3 hz
      have hcc : cfg = c := by rw [hc] at hcfg; exact (Option.some.inj hcfg).symm
      subst hcc
      have hv : v0 = v3 := by
        rw [hrun fuel] at h0
        simp only [Result.emits_trace, List.mem_append] at h0
        rcases h0 with h0 | h0
        · simpa [configTrace, numberTrace, stringTrace, tunableTrace, writeTrace, readTrace,
            helloLog] using h0
        · have h := pollLoop_ops w cfg fuel v3 s1 _ h0
          simp [Event.op] at h
      subst hv
      rw [hloop fuel]
      simp only [Result.emits_trace, Result.emits_outcome, updates_append, polled_append, hp, hu,
        List.nil_append]
      refine ⟨pollLoop_updates w cfg fuel v0 _, ?_⟩
      intro c1 hc1
      obtain ⟨q1, q2, -⟩ := pollLoop_running w cfg fuel v0 _ c1 hc1
      exact ⟨q1, q2⟩
  refine ⟨main.1, main.2, ?_, ?_⟩
  · intro hconst
    rw [main.1]
    exact changes_const v0 _ hconst
  · intro V i0 is hv hpolled hsorted
    obtain ⟨z1, z2⟩ := zip_sorted is i0 hsorted
    refine ⟨(List.zip (i0 :: is) is).filter (fun p => V p.1 ≠ V p.2), ?_, ?_, ?_, ?_⟩
    · rw [main.1, hpolled, hv]
      exact changes_map V is i0
    · intro p hp
      rw [List.mem_filter] at hp
      have hle := z2 p hp.1
      have hne : p.1 ≠ p.2 := by
        intro heq
        have := hp.2
        simp [heq] at this
      omega
    · exact z1.filter _
    · intro c hc
      rw [(main.2 c hc).2, hpolled, hv]
      exact getLastD_map V is i0

/-- C8, at the calm world, whose tunable string reads "a" and then polls
"a", "b", "b", "c": the updates are "a" to "b" and "b" to "c". -/
theorem C8_polling_reports_changes_witness :
    Event.getStringSafe "tunable-string-example" "a" none
        ∈ (run (scripted calm) rover (some ⟨0⟩) 4 boot).trace ∧
    polled (run (scripted calm) rover (some ⟨0⟩) 4 boot).trace = ["a", "b", "b", "c"] ∧
    updates (run (scripted calm) rover (some ⟨0⟩) 4 boot).trace
      = changes "a" (polled (run (scripted calm) rover (some ⟨0⟩) 4 boot).trace) ∧
    updates (run (scripted calm) rover (some ⟨0⟩) 4 boot).trace = [("a", "b"), ("b", "c")] :=
  ⟨by decide, by decide,
    (C8_polling_reports_changes (scripted calm) rover (some ⟨0⟩) 4 boot "a" (by decide)).1,
    by decide⟩

/-- C9: `run` never returns nil: whatever the service, the configuration and
the world, after any number of turns the outcome is not a return without
error.  Once the loop is entered, `run` has returned within `fuel` turns if and
only if one of the first `fuel` polls returns an error, and it returns at the
first such poll: if the polls of the turns before turn `k` return no error and
that of turn `k` returns `err`, every execution of more than `k` turns has
returned the error "failed to get configuration: " followed by `err`, its last
call being that poll, the `k + 1`-th. -/
theorem C9_run_never_succeeds {σ : Type} (w : World σ) (service : Service)
    (configuration : Option ServiceConfiguration) (fuel : Nat) (s : σ) :
    (run w service configuration fuel s).outcome ≠ Outcome.returned none ∧
    (∀ v, (run w service configuration 0 s).outcome = Outcome.running v →
      ∃ cfg, configuration = some cfg ∧
        ((∃ e, (run w service configuration fuel s).outcome = Outcome.returned e) ↔
          ∃ k, k < fuel ∧
            (pollAnswer w cfg (run w service configuration 0 s).world k).2 ≠ none) ∧
        (∀ k err, k < fuel →
          (∀ i, i < k →
            (pollAnswer w cfg (run w service configuration 0 s).world i).2 = none) →
          (pollAnswer w cfg (run w service configuration 0 s).world k).2 = some err →
          (run w service configuration fuel s).outcome
            = Outcome.returned (some (Errorf "failed to get configuration: " err)) ∧
          (run w service configuration fuel s).trace.getLast?
            = some (Event.getString "tunable-string-example"
                (pollAnswer w cfg (run w service configuration 0 s).world k).1 (some err)) ∧
          (callsOf Op.getString (run w service configuration fuel s).trace).length = k + 1)) := by
  constructor
  · rcases run_shape w service configuration s with ⟨o, tr, s1, hx, hrun⟩ | ⟨c, name, version,
      x, v2, v3, ws1, t, rs1, m0, e9, l9, f9, a9, raw1, e10, l10, f10, a10, s1, -, -, -, -,
      -, hrun, -⟩
    · rw [hrun fuel]
      cases hx <;> simp
    · rw [hrun fuel]
      rcases pollLoop_outcome w c fuel v3 s1 with ⟨c1, h⟩ | ⟨e, h⟩ <;> simp [h]
  · intro v hv
    obtain ⟨cfg, hcfg, hloop, -, hg, -, -, -⟩ := run_loop_entry w service configuration s v hv
    have first : ∀ k err, k < fuel →
        (∀ i, i < k →
          (pollAnswer w cfg (run w service configuration 0 s).world i).2 = none) →
        (pollAnswer w cfg (run w service configuration 0 s).world k).2 = some err →
        (run w service configuration fuel s).outcome
          = Outcome.returned (some (Errorf "failed to get configuration: " err)) ∧
        (run w service configuration fuel s).trace.getLast?
          = some (Event.getString "tunable-string-example"
              (pollAnswer w cfg (run w service configuration 0 s).world k).1 (some err)) ∧
        (callsOf Op.getString (run w service configuration fuel s).trace).length = k + 1 := by
      intro k err hk hok hf
      obtain ⟨h1, h2, h3, -⟩ := pollLoop_first_failure w cfg k fuel v _ err hk hok hf
      rw [hloop fuel]
      refine ⟨h1, ?_, ?_⟩
      · rw [Result.emits_trace, List.getLast?_append, h2]
        rfl
      · rw [Result.emits_trace, callsOf_append, hg, List.nil_append, h3]
    refine ⟨cfg, hcfg, ⟨?_, ?_⟩, first⟩
    · rintro ⟨e, he⟩
      by_contra hno
      have hall : ∀ i, i < fuel →
          (pollAnswer w cfg (run w service configuration 0 s).world i).2 = none := by
        intro i hi
        by_contra hne
        exact hno ⟨i, hi, hne⟩
      obtain ⟨⟨c, hc⟩, -, -⟩ := pollLoop_all_succeed w cfg fuel v _ hall
      rw [hloop fuel, Result.emits_outcome, hc] at he
      simp at he
    · intro hex
      classical
      have hk := Nat.find_spec hex
      have hmin : ∀ i, i < Nat.find hex →
          (pollAnswer w cfg (run w service configuration 0 s).world i).2 = none := by
        intro i hi
        by_contra hne
        exact Nat.find_min hex hi ⟨lt_trans hi hk.1, hne⟩
      obtain ⟨err, herr⟩ := Option.ne_none_iff_exists'.mp hk.2
      exact ⟨_, (first (Nat.find hex) err hk.1 hmin herr).1⟩

/-- C9, at a world whose third poll fails: with more than two turns `run` has
returned the error of that poll, the third. -/
theorem C9_run_never_succeeds_witness :
    (run (scripted { calm with polls := [("a", none), ("b", none), ("", some "gone")] })
        rover (some ⟨0⟩) 0 boot).outcome = Outcome.running "a" ∧
    (run (scripted { calm with polls := [("a", none), ("b", none), ("", some "gone")] })
        rover (some ⟨0⟩) 7 boot).outcome
      = Outcome.returned (some (Errorf "failed to get configuration: " "gone")) := by
  obtain ⟨cfg, hcfg, -, h⟩ :=
    (C9_run_never_succeeds
      (scripted { calm with polls := [("a", none), ("b", none), ("", some "gone")] })
      rover (some ⟨0⟩) 7 boot).2 "a" (by decide)
  cases hcfg
  exact ⟨by decide, (h 2 "gone" (by decide)
    (fun i hi => by rcases i with _ | _ | i <;> first | rfl | omega) rfl).1⟩

/-- C5 as the code has it: `run` receives no cancellation signal and checks
none.  Once in its loop, as long as the polls return no error it goes on
whatever has happened in the world, a termination request included: after
`fuel` turns it is still in the loop, having polled `fuel` times and slept one
second `fuel` times. -/
theorem C5_run_polls_until_a_poll_fails {σ : Type} (w : World σ) (service : Service)
    (configuration : Option ServiceConfiguration) (fuel : Nat) (s : σ) (v : String)
    (hloop : (run w service configuration 0 s).outcome = Outcome.running v) :
    ∃ cfg, configuration = some cfg ∧
      ((∀ i, i < fuel →
          (pollAnswer w cfg (run w service configuration 0 s).world i).2 = none) →
        (∃ c, (run w service configuration fuel s).outcome = Outcome.running c) ∧
        (polled (run w service configuration fuel s).trace).length = fuel ∧
        callsOf Op.sleep (run w service configuration fuel s).trace
          = List.replicate fuel (Event.sleep second)) := by
  obtain ⟨cfg, hcfg, hrun, -, -, hs, hp, -⟩ := run_loop_entry w service configuration s v hloop
  refine ⟨cfg, hcfg, fun hall => ?_⟩
  obtain ⟨⟨c, hc⟩, h2, h3⟩ := pollLoop_all_succeed w cfg fuel v _ hall
  rw [hrun fuel]
  refine ⟨⟨c, hc⟩, ?_, ?_⟩
  · rw [Result.emits_trace, polled_append, hp, List.nil_append, h2]
    simp
  · rw [Result.emits_trace, callsOf_append, hs, List.nil_append, h3]

/-- C5, at the calm world: after 3 turns `run` is still in its loop. -/
theorem C5_run_polls_until_a_poll_fails_witness :
    (run (scripted calm) rover (some ⟨0⟩) 0 boot).outcome = Outcome.running "a" ∧
    (∃ c, (run (scripted calm) rover (some ⟨0⟩) 3 boot).outcome = Outcome.running c) ∧
    callsOf Op.sleep (run (scripted calm) rover (some ⟨0⟩) 3 boot).trace
      = List.replicate 3 (Event.sleep second) := by
  obtain ⟨cfg, hcfg, h⟩ :=
    C5_run_polls_until_a_poll_fails (scripted calm) rover (some ⟨0⟩) 3 boot "a" (by decide)
  have h1 := h (fun i _ => calm_polls cfg _ i)
  exact ⟨by decide, h1.1, h1.2.2⟩

/-- C5 as stated fails: in the calm world the termination request arrives
during the first sleep, every poll succeeds, and `run` has not returned after
any number of turns. -/
theorem C5_cancellation_counterexample :
    (run (scripted calm) rover (some ⟨0⟩) 1 boot).world.terminationRequested = true ∧
    ¬ ∃ fuel e, (run (scripted calm) rover (some ⟨0⟩) fuel boot).outcome = Outcome.returned e := by
  refine ⟨by decide, ?_⟩
  rintro ⟨fuel, e, he⟩
  obtain ⟨cfg, -, hrun, -⟩ := run_loop_entry (scripted calm) rover (some ⟨0⟩) boot "a" (by decide)
  obtain ⟨⟨c, hc⟩, -, -⟩ := pollLoop_all_succeed (scripted calm) cfg fuel "a"
    (run (scripted calm) rover (some ⟨0⟩) 0 boot).world (fun i _ => calm_polls cfg _ i)
  rw [hrun fuel, Result.emits_outcome, hc] at he
  simp at he

end ServoTrimmer
